import Mathlib

/-!
Shallow embedding of the Zero Trust Multi-Cloud Framework's
decision-and-enforcement pipeline (pdp.py, pep.py, arm.py, monitoring.py,
main.py) and proofs about it.

Python strings are modelled as Lean `String` (working over `.data`, the
character list); Python dictionaries with a fixed key set become records,
dictionaries used as variable-key maps become insertion-ordered association
lists; `dict.get(k, default)` on an optional field becomes `Option.getD`;
a Python function that returns `None` is given return type `Option _`.
-/

namespace ZT

/-! ### String helpers (Python string operations, ASCII-faithful) -/

/-- `s.lower()` (faithful for ASCII text, which is all this pipeline compares). -/
def lowerStr (s : String) : String := String.mk (s.data.map Char.toLower)

/-- `p` starts the string `s`, i.e. Python `s.startswith(p)`. -/
def strStarts (p s : String) : Bool := p.data.isPrefixOf s.data

/-- Substring occurrence on character lists. -/
def listInfixOf (sub : List Char) : List Char → Bool
  | [] => sub.isEmpty
  | c :: cs => sub.isPrefixOf (c :: cs) || listInfixOf sub cs

/-- Python `sub in s` (substring containment). -/
def strContains (s sub : String) : Bool := listInfixOf sub.data s.data

/-! ### pdp.py — context configuration and evaluation -/

/-- `TRUSTED_IP_RANGES = ["192.168.", "10.0."]` (pdp.py line 20). -/
def TRUSTED_IP_RANGES : List String := ["192.168.", "10.0."]

/-- `TRUSTED_DEVICES` (pdp.py line 21). -/
def TRUSTED_DEVICES : List String := ["device-laptop-001", "device-admin-001"]

/-- `BUSINESS_HOURS = (8, 20)` (pdp.py line 22). -/
def BUSINESS_HOURS : Nat × Nat := (8, 20)

/-- `in_trusted_network` (pdp.py lines 28-29):
`any(ip.startswith(p) for p in TRUSTED_IP_RANGES)`. -/
def in_trusted_network (ip : String) : Bool :=
  TRUSTED_IP_RANGES.any (fun p => strStarts p ip)

/-- `within_business_hours` (pdp.py lines 31-33), parametrised by the current
hour of day (`dt.datetime.now().hour` in the source):
`BUSINESS_HOURS[0] <= now < BUSINESS_HOURS[1]`. -/
def within_business_hours (hour : Nat) : Bool :=
  decide (BUSINESS_HOURS.1 ≤ hour ∧ hour < BUSINESS_HOURS.2)

/-- `is_trusted_device` (pdp.py lines 35-36): `device_id in TRUSTED_DEVICES`. -/
def is_trusted_device (device_id : String) : Bool :=
  TRUSTED_DEVICES.contains device_id

/-- A request dictionary; every field is optional because the source reads
them with `request.get(key, default)`. -/
structure Request where
  user : Option String := none
  action : Option String := none
  resource : Option String := none
  ip : Option String := none
  device : Option String := none
deriving DecidableEq

/-- `evaluate_context` (pdp.py lines 38-50), parametrised by the current hour
(the source consults the wall clock inside `within_business_hours`). -/
def evaluate_context (request : Request) (hour : Nat) : String × String :=
  let ip := request.ip.getD "unknown"
  let device := request.device.getD "unknown"
  if !(in_trusted_network ip) then
    ("deny", "Untrusted network source (" ++ ip ++ ")")
  else if !(within_business_hours hour) then
    ("deny", "Access attempted outside business hours")
  else if !(is_trusted_device device) then
    ("review", "Unrecognized device (" ++ device ++ ")")
  else
    ("allow", "Context validated")

/-! ### pdp.py — action policies -/

/-- One policy record from policies.json: `p["conditions"].get("action", [])`
under `actionConds`, plus `p["decision"]` and `p["description"]`. -/
structure Policy where
  actionConds : List String
  decision : String
  description : String
deriving DecidableEq

/-- The loaded policy document: `policy_data["policies"]` and
`policy_data.get("default_action", ...)`. -/
structure PolicyData where
  policies : List Policy
  default_action : Option String := none
deriving DecidableEq

/-- The per-policy test of `evaluate_action` (pdp.py lines 56-57):
`actions = [a.lower() for a in ...]; action in actions or "*" in actions`. -/
def policyMatches (action : String) (p : Policy) : Bool :=
  let actions := p.actionConds.map lowerStr
  actions.contains action || actions.contains "*"

/-- The `for p in policy_data["policies"]` loop of `evaluate_action`:
first matching policy wins. -/
def evalActionLoop (action : String) : List Policy → Option (String × String)
  | [] => none
  | p :: ps =>
    if policyMatches action p then some (p.decision, p.description)
    else evalActionLoop action ps

/-- `evaluate_action` (pdp.py lines 52-59). -/
def evaluate_action (request : Request) (policy_data : PolicyData) : String × String :=
  let action := lowerStr (request.action.getD "")
  match evalActionLoop action policy_data.policies with
  | some res => res
  | none => (policy_data.default_action.getD "deny", "No matching policy (default deny)")

/-- `combine_decisions` (pdp.py lines 61-73). -/
def combine_decisions (context_decision action_decision : String) : String :=
  if context_decision = "deny" ∨ action_decision = "deny" then "deny"
  else if context_decision = "review" ∧ action_decision = "allow" then "review"
  else if context_decision = "allow" ∧ action_decision = "allow" then "allow"
  else "deny"

/-- The decision/reason combination performed by `main` (pdp.py lines 93-100):
the final decision, paired with
`context_reason if final_decision == context_decision else action_reason`. -/
def pdp_decide (ctx act : String × String) : String × String :=
  let final_decision := combine_decisions ctx.1 act.1
  (final_decision, if final_decision = ctx.1 then ctx.2 else act.2)

/-! ### pep.py — decision extraction from the PDP's printed output

`extract_decision_and_reason` first drops non-ASCII characters
(`output.encode("ascii", "ignore")`), then searches the regular expressions
`\b(ALLOW|DENY|REVIEW)\b` (IGNORECASE) and `Reason:\s*(.*)` (IGNORECASE,
DOTALL).  The scan below is a direct model of `re.search`: leftmost match,
alternatives tried in pattern order at each position. -/

/-- The `[A-Za-z0-9_]` word-character class of the regex `\b` boundary. -/
def isWordChar (c : Char) : Bool := c.isAlphanum || c = '_'

/-- Case-insensitive match of pattern `pat` against the start of `text`;
returns the remaining text on success. -/
def ciStarts : List Char → List Char → Option (List Char)
  | [], rest => some rest
  | _ :: _, [] => none
  | p :: ps, c :: cs => if p.toLower = c.toLower then ciStarts ps cs else none

/-- The three alternatives of `\b(ALLOW|DENY|REVIEW)\b`, in pattern order. -/
def decisionWords : List String := ["ALLOW", "DENY", "REVIEW"]

/-- Try to match one alternative `w` case-insensitively at the start of
`text`, requiring a word boundary after the match; on success return the
canonical upper-case word — modelling `match.group(1).upper()`, since
uppercasing the matched text of an all-letter pattern under IGNORECASE
yields exactly the pattern word. -/
def tryWordAt (text : List Char) (w : String) : Option String :=
  match ciStarts w.data text with
  | some rest =>
    match rest with
    | [] => some w
    | r :: _ => if isWordChar r then none else some w
  | none => none

/-- `re.search(r"\b(ALLOW|DENY|REVIEW)\b", text, re.IGNORECASE)`: the
leftmost scan, trying every position in turn, alternatives in pattern order,
positions only at a word boundary.  `prev` is the character before the
current position. -/
def findDecisionToken (prev : Option Char) : List Char → Option String
  | [] => none
  | c :: cs =>
    let boundaryBefore := match prev with
      | none => true
      | some pc => !(isWordChar pc)
    let tryHere : Option String :=
      if boundaryBefore then decisionWords.findSome? (tryWordAt (c :: cs))
      else none
    match tryHere with
    | some w => some w
    | none => findDecisionToken (some c) cs

/-- Leftmost case-insensitive occurrence of `pat`; returns the text following
the occurrence (the input to the `\s*(.*)` tail of the reason pattern). -/
def findMarkerTail (pat : List Char) : List Char → Option (List Char)
  | [] => none
  | c :: cs =>
    match ciStarts pat (c :: cs) with
    | some rest => some rest
    | none => findMarkerTail pat cs

/-- ASCII `\s` of the regex / Python `str.strip()` whitespace set. -/
def isPySpace (c : Char) : Bool :=
  c = ' ' || c = '\t' || c = '\n' || c = '\x0b' || c = '\x0c' || c = '\r'

/-- Python `str.strip()` on a character list. -/
def pyStrip (l : List Char) : List Char :=
  ((l.dropWhile isPySpace).reverse.dropWhile isPySpace).reverse

/-- `output.encode("ascii", "ignore").decode("ascii")`: drop non-ASCII. -/
def asciiClean (s : String) : List Char := s.data.filter (fun c => c.toNat < 128)

/-- `extract_decision_and_reason` (pep.py lines 16-24). -/
def extract_decision_and_reason (output : String) : String × String :=
  let clean_output := asciiClean output
  let decision := (findDecisionToken none clean_output).getD "DENY"
  let reason :=
    match findMarkerTail ("Reason:".data) clean_output with
    | some rest => String.mk (pyStrip (rest.dropWhile isPySpace))
    | none => "Unknown"
  (decision, reason)

/-- The cloud heuristic of `enforce_access` (pep.py lines 44-48):
`"AWS" if "aws" in resource.lower() else "Azure" if "azure" in ... else "GCP"`. -/
def cloud_target (resource : String) : String :=
  if strContains (lowerStr resource) "aws" then "AWS"
  else if strContains (lowerStr resource) "azure" then "Azure"
  else "GCP"

/-! ### monitoring.py — event log and metrics -/

/-- One line of the central log, as built by `log_event` (monitoring.py
lines 38-50); the timestamp and `details` play no role in any claim. -/
structure Entry where
  module : String
  event_type : String
  user : String
  resource : String
  cloud : String
  decision : Option String
  reason : Option String
  actions_taken : List String
deriving DecidableEq

/-- The fixed-key dictionary `metrics["per_cloud"] = {"AWS":0,"Azure":0,"GCP":0}`. -/
structure PerCloud where
  AWS : Nat
  Azure : Nat
  GCP : Nat
deriving DecidableEq

/-- The `metrics` dictionary (monitoring.py lines 14-22); `events_by_type` is
a variable-key dictionary, modelled as an insertion-ordered association list. -/
structure Metrics where
  total_access_requests : Nat
  deny_count : Nat
  review_count : Nat
  allow_count : Nat
  total_remediations : Nat
  per_cloud : PerCloud
  events_by_type : List (String × Nat)
deriving DecidableEq

/-- The initial all-zero metrics value. -/
def initMetrics : Metrics :=
  { total_access_requests := 0, deny_count := 0, review_count := 0,
    allow_count := 0, total_remediations := 0,
    per_cloud := { AWS := 0, Azure := 0, GCP := 0 }, events_by_type := [] }

/-- `if cloud in metrics["per_cloud"]: metrics["per_cloud"][cloud] += 1`
(monitoring.py lines 76-78, identically main.py lines 87-88). -/
def bumpPerCloud (pc : PerCloud) (cloud : String) : PerCloud :=
  if cloud = "AWS" then { pc with AWS := pc.AWS + 1 }
  else if cloud = "Azure" then { pc with Azure := pc.Azure + 1 }
  else if cloud = "GCP" then { pc with GCP := pc.GCP + 1 }
  else pc

/-- Incrementing a variable-key Python dict entry: both
`d.setdefault(k, 0); d[k] += 1` (monitoring.py lines 82-83) and
`d[k] = d.get(k, 0) + 1` (main.py line 90) update the key in place when
present and append it (insertion order) when absent. -/
def dictBump (m : List (String × Nat)) (t : String) : List (String × Nat) :=
  match m with
  | [] => [(t, 1)]
  | (k, v) :: rest => if k = t then (k, v + 1) :: rest else (k, v) :: dictBump rest t

/-- `update_metrics` (monitoring.py lines 62-87), statement by statement. -/
def update_metrics (m : Metrics) (entry : Entry) : Metrics :=
  let m1 := { m with total_access_requests :=
      m.total_access_requests + (if entry.event_type = "ACCESS_REQUEST" then 1 else 0) }
  let m2 := { m1 with total_remediations :=
      m1.total_remediations + (if entry.event_type = "REMEDIATION" then 1 else 0) }
  let m3 :=
    if entry.decision = some "DENY" then { m2 with deny_count := m2.deny_count + 1 }
    else if entry.decision = some "REVIEW" then { m2 with review_count := m2.review_count + 1 }
    else if entry.decision = some "ALLOW" then { m2 with allow_count := m2.allow_count + 1 }
    else m2
  let m4 := { m3 with per_cloud := bumpPerCloud m3.per_cloud entry.cloud }
  { m4 with events_by_type := dictBump m4.events_by_type entry.event_type }

/-! ### main.py — batch aggregation over the log -/

/-- The per-line body of `aggregate_metrics_from_log` (main.py lines 70-90). -/
def aggregateStep (m : Metrics) (e : Entry) : Metrics :=
  let m1 := if e.event_type = "ACCESS_REQUEST"
    then { m with total_access_requests := m.total_access_requests + 1 } else m
  let m2 := if e.event_type = "REMEDIATION"
    then { m1 with total_remediations := m1.total_remediations + 1 } else m1
  let m3 :=
    if e.decision = some "DENY" then { m2 with deny_count := m2.deny_count + 1 }
    else if e.decision = some "REVIEW" then { m2 with review_count := m2.review_count + 1 }
    else if e.decision = some "ALLOW" then { m2 with allow_count := m2.allow_count + 1 }
    else m2
  let m4 := { m3 with per_cloud := bumpPerCloud m3.per_cloud e.cloud }
  { m4 with events_by_type := dictBump m4.events_by_type e.event_type }

/-- `aggregate_metrics_from_log` (main.py lines 52-92): fold the per-line body
over the recorded entries starting from the all-zero metrics. -/
def aggregate_metrics_from_log (lines : List Entry) : Metrics :=
  lines.foldl aggregateStep initMetrics

/-! ### arm.py — auto-remediation -/

/-- `aws_revoke_access` (arm.py lines 6-13). -/
def aws_revoke_access (user : String) : String :=
  "Removed " ++ user ++ " from SensitiveAccess group in AWS (mock)"

/-- `azure_revoke_access` (arm.py lines 15-17). -/
def azure_revoke_access (user : String) : String :=
  "Azure remediation triggered for " ++ user

/-- `gcp_revoke_access` (arm.py lines 19-21). -/
def gcp_revoke_access (user : String) : String :=
  "GCP remediation triggered for " ++ user

/-- One line of arm_log.json, as built by `auto_remediate` (arm.py
lines 42-50); the timestamp plays no role in any claim. -/
structure ArmEntry where
  user : String
  resource : String
  decision : String
  reason : String
  cloud : String
  actions_taken : List String
deriving DecidableEq

/-- The `actions` list built by the `if decision == "DENY" ... elif
decision == "REVIEW"` chain of `auto_remediate` (arm.py lines 29-40). -/
def remediationActions (user resource decision reason cloud : String) : List String :=
  if decision = "DENY" then
    if strContains (lowerStr cloud) "aws" then [aws_revoke_access user]
    else if strContains (lowerStr cloud) "azure" then [azure_revoke_access user]
    else if strContains (lowerStr cloud) "gcp" then [gcp_revoke_access user]
    else []
  else if decision = "REVIEW" then
    ["Admin review needed for " ++ user ++ " on " ++ resource ++ ": " ++ reason]
  else []

/-! ### The observable state of one pipeline run

`monitoring.log_event` appends to the central log file and updates the shared
metrics; `arm.log_remediation` appends to arm_log.json.  These two files and
the metrics dictionary are the mutable state the claims speak about. -/

structure SysState where
  central : List Entry
  metrics : Metrics
  arm_log : List ArmEntry
deriving DecidableEq

/-- The process-start state: empty logs, all-zero metrics. -/
def initSys : SysState := { central := [], metrics := initMetrics, arm_log := [] }

/-- The entry dictionary built by `log_event` (monitoring.py lines 39-50). -/
def mkEntry (module event_type user resource cloud : String)
    (decision reason : Option String) (actions : List String) : Entry :=
  { module := module, event_type := event_type, user := user, resource := resource,
    cloud := cloud, decision := decision, reason := reason, actions_taken := actions }

/-- `log_event` (monitoring.py lines 31-57): append the entry to the central
log, then `update_metrics(entry)`. -/
def log_event (module event_type user resource cloud : String)
    (decision reason : Option String) (actions : List String)
    (s : SysState) : SysState :=
  let entry := mkEntry module event_type user resource cloud decision reason actions
  { s with central := s.central ++ [entry],
           metrics := update_metrics s.metrics entry }

/-- `auto_remediate` (arm.py lines 27-53): build the action list, append one
entry to arm_log.json via `log_remediation`, and fall off the end of the
function — i.e. return Python `None` (modelled as `none`). -/
def auto_remediate (user resource decision reason cloud : String)
    (s : SysState) : SysState × Option (List String) :=
  let actions := remediationActions user resource decision reason cloud
  let log_entry : ArmEntry :=
    { user := user, resource := resource, decision := decision,
      reason := reason, cloud := cloud, actions_taken := actions }
  ({ s with arm_log := s.arm_log ++ [log_entry] }, none)

/-! ### pep.py — enforcement, with its emission trace

`enforce_access` is modelled with an explicit trace of its externally visible
emissions, in program order: the Central Monitoring write made through
`log_event` and the call into `auto_remediate`. -/

inductive PEvent
  | monLog (e : Entry)
  | armCall (user resource decision reason cloud : String)
deriving DecidableEq

/-- The trace event is the ACCESS_REQUEST log write. -/
def isAccessLog : PEvent → Bool
  | .monLog e => e.event_type = "ACCESS_REQUEST"
  | _ => false

/-- The trace event is the remediation-dispatcher invocation. -/
def isArmCall : PEvent → Bool
  | .armCall _ _ _ _ _ => true
  | _ => false

/-- `enforce_access` (pep.py lines 27-72), parametrised by the text the PDP
subprocess printed (`result.stdout.strip()`); returns the updated state and
the ordered trace of emissions. -/
def enforce_access (user _action resource _ip _device : String)
    (pdpOutput : String) (s : SysState) : SysState × List PEvent :=
  let dr := extract_decision_and_reason pdpOutput
  let decision := dr.1
  let reason := dr.2
  let cloud := cloud_target resource
  let s1 := log_event "PEP" "ACCESS_REQUEST" user resource cloud
      (some decision) (some reason) [] s
  let logged := PEvent.monLog
      (mkEntry "PEP" "ACCESS_REQUEST" user resource cloud (some decision) (some reason) [])
  if ["DENY", "REVIEW"].contains decision then
    ((auto_remediate user resource decision reason cloud s1).1,
     [logged, PEvent.armCall user resource decision reason cloud])
  else
    (s1, [logged])

/-- One simulated request of `simulate_requests` / one `enforce_access` call,
together with the text its PDP subprocess printed. -/
structure EnforceInput where
  user : String
  action : String
  resource : String
  ip : String
  device : String
  pdpOutput : String
deriving DecidableEq

/-- A sequence of `enforce_access` calls from a given state. -/
def runAll (inputs : List EnforceInput) (s : SysState) : SysState :=
  inputs.foldl
    (fun s i => (enforce_access i.user i.action i.resource i.ip i.device i.pdpOutput s).1) s

/-- The sum of the per-decision counters of a metrics value. -/
def sumDecisions (m : Metrics) : Nat := m.deny_count + m.review_count + m.allow_count

/-- The number of ACCESS_REQUEST entries in a log. -/
def countAccess (l : List Entry) : Nat :=
  l.countP (fun e => e.event_type = "ACCESS_REQUEST")

/-! ### monitoring.py — the snapshot operation, with Python reference
semantics

`get_metrics_snapshot` (monitoring.py lines 92-94) returns `metrics.copy()`.
A Python `dict.copy()` is a *shallow* copy: the new top-level dictionary
holds the same values for the scalar counters and the very same references
for the nested `per_cloud` and `events_by_type` dictionaries.  To reason
about aliasing we make the references explicit: a heap of nested-dictionary
cells addressed by index, and a top-level metrics object holding the scalar
counters by value and the two nested dictionaries by reference. -/

structure MHeap where
  perClouds : List PerCloud
  eventMaps : List (List (String × Nat))
deriving DecidableEq

/-- The top-level `metrics` dictionary with explicit references to its two
nested dictionaries. -/
structure MetricsObj where
  total_access_requests : Nat
  deny_count : Nat
  review_count : Nat
  allow_count : Nat
  total_remediations : Nat
  per_cloud_ref : Nat
  events_ref : Nat
deriving DecidableEq

/-- `get_metrics_snapshot` (monitoring.py lines 92-94): `metrics.copy()` —
a fresh top-level dictionary with identical counter values and identical
nested references. -/
def get_metrics_snapshot (m : MetricsObj) : MetricsObj :=
  { total_access_requests := m.total_access_requests, deny_count := m.deny_count,
    review_count := m.review_count, allow_count := m.allow_count,
    total_remediations := m.total_remediations,
    per_cloud_ref := m.per_cloud_ref, events_ref := m.events_ref }

/-- Read a per-cloud cell from the heap. -/
def readPerCloud (h : MHeap) (r : Nat) : PerCloud :=
  h.perClouds.getD r { AWS := 0, Azure := 0, GCP := 0 }

/-- Read an events-by-type cell from the heap. -/
def readEvents (h : MHeap) (r : Nat) : List (String × Nat) :=
  h.eventMaps.getD r []

/-- `obj["per_cloud"]["AWS"] = v`: an in-place write through a reference. -/
def writeCloudAWS (h : MHeap) (r : Nat) (v : Nat) : MHeap :=
  { h with perClouds :=
      h.perClouds.set r { readPerCloud h r with AWS := v } }

/-- The full metrics value a reader observes through a top-level object:
its scalar counters plus the dereferenced nested dictionaries. -/
def observe (h : MHeap) (m : MetricsObj) : Metrics :=
  { total_access_requests := m.total_access_requests, deny_count := m.deny_count,
    review_count := m.review_count, allow_count := m.allow_count,
    total_remediations := m.total_remediations,
    per_cloud := readPerCloud h m.per_cloud_ref,
    events_by_type := readEvents h m.events_ref }

/-! ## Theorems -/

/-- C1: The decision-combination function combine_decisions matches the spec's
table exactly: for every decision x, combine(DENY, x) = DENY and
combine(x, DENY) = DENY; combine(REVIEW, ALLOW) = REVIEW;
combine(ALLOW, ALLOW) = ALLOW; and every other combination (in particular
combine(ALLOW, REVIEW) and combine(REVIEW, REVIEW)) yields DENY. -/
theorem C1_combine_table :
    ∀ x ∈ (["allow", "deny", "review"] : List String),
    ∀ y ∈ (["allow", "deny", "review"] : List String),
      combine_decisions "deny" x = "deny" ∧
      combine_decisions x "deny" = "deny" ∧
      combine_decisions "review" "allow" = "review" ∧
      combine_decisions "allow" "allow" = "allow" ∧
      combine_decisions "allow" "review" = "deny" ∧
      combine_decisions "review" "review" = "deny" ∧
      (x ≠ "deny" → y ≠ "deny" → ¬(x = "review" ∧ y = "allow") →
        ¬(x = "allow" ∧ y = "allow") → combine_decisions x y = "deny") := by
  intro x hx y hy
  fin_cases hx <;> fin_cases hy <;> decide

/-- Witness for C1 at a concrete input: the fallback row of the table. -/
theorem C1_witness : combine_decisions "review" "review" = "deny" :=
  (C1_combine_table "review" (by decide) "review" (by decide)).2.2.2.2.2.2
    (by decide) (by decide) (by decide) (by decide)

/-- C2: For every request, evaluate_context returns exactly one of DENY,
REVIEW, ALLOW, applying the checks strictly in the order network, then
business hours, then device — an IP matching no trusted prefix yields DENY
with the untrusted-network reason even when the device is trusted and the
hour is inside business hours — and the business-hours window is half-open:
hour equal to startHour is inside the window, hour equal to endHour is
outside. -/
theorem C2_context_total_order :
    (∀ (r : Request) (hour : Nat),
        (evaluate_context r hour).1 = "deny" ∨ (evaluate_context r hour).1 = "review" ∨
          (evaluate_context r hour).1 = "allow") ∧
    (∀ (ip device : String) (hour : Nat), in_trusted_network ip = false →
        evaluate_context { ip := some ip, device := some device } hour
          = ("deny", "Untrusted network source (" ++ ip ++ ")")) ∧
    (∀ (ip device : String) (hour : Nat), in_trusted_network ip = true →
        within_business_hours hour = false →
        evaluate_context { ip := some ip, device := some device } hour
          = ("deny", "Access attempted outside business hours")) ∧
    (within_business_hours BUSINESS_HOURS.1 = true ∧
      within_business_hours BUSINESS_HOURS.2 = false) := by
  refine ⟨?_, ?_, ?_, by decide⟩
  · intro r hour
    simp only [evaluate_context]
    split
    · exact Or.inl rfl
    · split
      · exact Or.inl rfl
      · split
        · exact Or.inr (Or.inl rfl)
        · exact Or.inr (Or.inr rfl)
  · intro ip device hour h
    simp [evaluate_context, h]
  · intro ip device hour h1 h2
    simp [evaluate_context, h1, h2]

/-- Witness for C2 at concrete inputs: an untrusted IP with a trusted device
during business hours, and a trusted IP outside business hours. -/
theorem C2_witness :
    evaluate_context { ip := some "8.8.8.8", device := some "device-laptop-001" } 12
        = ("deny", "Untrusted network source (" ++ "8.8.8.8" ++ ")") ∧
    evaluate_context { ip := some "10.0.0.1", device := some "device-laptop-001" } 22
        = ("deny", "Access attempted outside business hours") :=
  ⟨C2_context_total_order.2.1 "8.8.8.8" "device-laptop-001" 12 (by decide),
   C2_context_total_order.2.2.1 "10.0.0.1" "device-laptop-001" 22 (by decide) (by decide)⟩

/-- C7: For every request, the reason attached to the final PDP decision is
the reason of whichever side (context or action) determined the final
decision, and when both sides independently agree with the final decision
the context reason is preferred; in particular, when the final decision
equals the context decision the context reason is returned, and otherwise
the action reason is returned. -/
theorem C7_reason_selection : ∀ cd cr ad ar : String,
    (pdp_decide (cd, cr) (ad, ar)).1 = combine_decisions cd ad ∧
    ((pdp_decide (cd, cr) (ad, ar)).1 = cd → (pdp_decide (cd, cr) (ad, ar)).2 = cr) ∧
    ((pdp_decide (cd, cr) (ad, ar)).1 ≠ cd → (pdp_decide (cd, cr) (ad, ar)).2 = ar) ∧
    ((pdp_decide (cd, cr) (ad, ar)).1 = cd → (pdp_decide (cd, cr) (ad, ar)).1 = ad →
      (pdp_decide (cd, cr) (ad, ar)).2 = cr) := by
  intro cd cr ad ar
  refine ⟨rfl, ?_, ?_, ?_⟩
  · intro h
    simp only [pdp_decide] at h ⊢
    simp [h]
  · intro h
    simp only [pdp_decide] at h ⊢
    simp [h]
  · intro h _
    simp only [pdp_decide] at h ⊢
    simp [h]

/-- Witness for C7 at a concrete input: both sides agree on ALLOW, the
context reason is preferred. -/
theorem C7_witness : (pdp_decide ("allow", "ctx ok") ("allow", "act ok")).2 = "ctx ok" :=
  (C7_reason_selection "allow" "ctx ok" "allow" "act ok").2.1 (by decide)

/-- C10: evaluate_context never raises for any request dictionary, including
one missing the ip or device fields: a missing ip or device is substituted
with the string "unknown", and since "unknown" starts with no trusted
prefix, a request missing its ip field is denied with the untrusted-network
reason rather than rejected or crashed.  (Totality is the totality of the
Lean function; the conjuncts pin down the observable `"unknown"`
substitutions and that every outcome is one of the three decisions.) -/
theorem C10_missing_fields : ∀ (r : Request) (hour : Nat),
    (r.ip = none → evaluate_context r hour = ("deny", "Untrusted network source (unknown)")) ∧
    (in_trusted_network (r.ip.getD "unknown") = true → within_business_hours hour = true →
      r.device = none → evaluate_context r hour = ("review", "Unrecognized device (unknown)")) ∧
    ((evaluate_context r hour).1 = "deny" ∨ (evaluate_context r hour).1 = "review" ∨
      (evaluate_context r hour).1 = "allow") := by
  intro r hour
  have hu : in_trusted_network "unknown" = false := by decide
  have hd : is_trusted_device "unknown" = false := by decide
  refine ⟨?_, ?_, ?_⟩
  · intro h
    simp [evaluate_context, h, hu]
  · intro h1 h2 h3
    simp [evaluate_context, h1, h2, h3, hd]
  · simp only [evaluate_context]
    split
    · exact Or.inl rfl
    · split
      · exact Or.inl rfl
      · split
        · exact Or.inr (Or.inl rfl)
        · exact Or.inr (Or.inr rfl)

/-- Witness for C10 at concrete inputs: a request with no fields at all is
denied as coming from the untrusted network "unknown"; a trusted-network
request with no device field goes to review over device "unknown". -/
theorem C10_witness :
    evaluate_context {} 12 = ("deny", "Untrusted network source (unknown)") ∧
    evaluate_context { ip := some "10.0.0.5" } 9 = ("review", "Unrecognized device (unknown)") :=
  ⟨(C10_missing_fields {} 12).1 rfl,
   (C10_missing_fields { ip := some "10.0.0.5" } 9).2.1 (by decide) (by decide) rfl⟩

/-! ### C3 — action-policy matching -/

lemma evalAction_head_match (a : String) (p : Policy) (ps : List Policy) (da : Option String)
    (h : policyMatches (lowerStr a) p = true) :
    evaluate_action { action := some a } ⟨p :: ps, da⟩ = (p.decision, p.description) := by
  simp [evaluate_action, evalActionLoop, h]

lemma evalAction_head_skip (a : String) (p : Policy) (ps : List Policy) (da : Option String)
    (h : policyMatches (lowerStr a) p = false) :
    evaluate_action { action := some a } ⟨p :: ps, da⟩
      = evaluate_action { action := some a } ⟨ps, da⟩ := by
  simp [evaluate_action, evalActionLoop, h]

lemma evalAction_nil (a : String) (da : Option String) :
    evaluate_action { action := some a } ⟨[], da⟩
      = (da.getD "deny", "No matching policy (default deny)") := by
  simp [evaluate_action, evalActionLoop]

/-- C3 counterexample: the claim says an entry of the form `svc:*` is a
prefix wildcard, so the policy entry `"s3:*"` should match the action
`"s3:GetObject"` and return the policy's decision, and that the no-match
reason is `"no matching policy (default)"`.  The code does neither: it falls
through to `("deny", "No matching policy (default deny)")`. -/
theorem C3_cex :
    ¬ (evaluate_action { action := some "s3:GetObject" }
          ⟨[⟨["s3:*"], "allow", "svc wildcard"⟩], some "deny"⟩ = ("allow", "svc wildcard") ∨
        (evaluate_action { action := some "s3:GetObject" }
          ⟨[⟨["s3:*"], "allow", "svc wildcard"⟩], some "deny"⟩).2
          = "no matching policy (default)") := by
  decide

/-- C3 amended: evaluate_action matches the request action case-insensitively
against each policy's action entries in PolicySet order, first match winning,
where a policy matches if the lowercased action equals a lowercased entry
literally or some entry is `*`; an entry of the form `svc:*` is **not** a
prefix wildcard and matches only the literal action `svc:*`; when no policy
matches it returns the PolicySet's default decision (with fallback `deny`)
and the reason string "No matching policy (default deny)". -/
theorem C3_action_matching :
    (∀ (a : String) (p : Policy) (ps : List Policy) (da : Option String),
        policyMatches (lowerStr a) p = true →
        evaluate_action { action := some a } ⟨p :: ps, da⟩ = (p.decision, p.description)) ∧
    (∀ (a : String) (p : Policy) (ps : List Policy) (da : Option String),
        policyMatches (lowerStr a) p = false →
        evaluate_action { action := some a } ⟨p :: ps, da⟩
          = evaluate_action { action := some a } ⟨ps, da⟩) ∧
    (∀ (d desc a : String) (ps : List Policy) (da : Option String),
        evaluate_action { action := some a } ⟨⟨["*"], d, desc⟩ :: ps, da⟩ = (d, desc)) ∧
    (∀ (d desc : String) (ps : List Policy) (da : Option String),
        evaluate_action { action := some "S3:GetObject" } ⟨⟨["s3:getobject"], d, desc⟩ :: ps, da⟩
          = (d, desc)) ∧
    (∀ (d desc a : String) (da : Option String),
        lowerStr a ≠ "svc:*" →
        evaluate_action { action := some a } ⟨[⟨["svc:*"], d, desc⟩], da⟩
          = (da.getD "deny", "No matching policy (default deny)")) ∧
    (∀ (a : String) (da : Option String),
        evaluate_action { action := some a } ⟨[], da⟩
          = (da.getD "deny", "No matching policy (default deny)")) := by
  refine ⟨evalAction_head_match, evalAction_head_skip, ?_, ?_, ?_, fun a da => evalAction_nil a da⟩
  · intro d desc a ps da
    apply evalAction_head_match
    have hstar : lowerStr "*" = "*" := by decide
    simp [policyMatches, hstar]
  · intro d desc ps da
    apply evalAction_head_match
    have hlit : lowerStr "S3:GetObject" = "s3:getobject" := by decide
    have hlow : lowerStr "s3:getobject" = "s3:getobject" := by decide
    simp [policyMatches, hlit, hlow]
  · intro d desc a da h
    rw [evalAction_head_skip, evalAction_nil]
    have hsvc : lowerStr "svc:*" = "svc:*" := by decide
    simp [policyMatches, hsvc, h]

/-- Witness for C3 at a concrete input: the entry `svc:*` fails to match the
action `s3:GetObject`, which falls through to the default. -/
theorem C3_witness :
    evaluate_action { action := some "s3:GetObject" } ⟨[⟨["svc:*"], "allow", "w"⟩], some "deny"⟩
      = ((some "deny").getD "deny", "No matching policy (default deny)") :=
  C3_action_matching.2.2.2.2.1 "allow" "w" "s3:GetObject" (some "deny") (by decide)

/-! ### C5 — auto-remediation -/

/-- C5 counterexample: at a concrete DENY/AWS call, the claim says
`auto_remediate` returns the action list and appends an entry to Central
Monitoring; the code returns `None` and leaves the central log untouched
(it writes to its own arm_log.json instead). -/
theorem C5_cex :
    ¬ ((auto_remediate "bob" "arn:aws:s3:::b" "DENY" "untrusted" "AWS" initSys).2
          = some [aws_revoke_access "bob"] ∧
        (auto_remediate "bob" "arn:aws:s3:::b" "DENY" "untrusted" "AWS" initSys).1.central
          ≠ initSys.central) := by
  decide

/-- C5 amended: auto_remediate collects exactly the matched adapter's
revokeAccess(user) result for DENY with a known cloud (case-insensitive
substring, precedence AWS, then Azure, then GCP), no action for an unmatched
cloud, and exactly one "admin review needed" description for REVIEW; it
appends one entry containing the full action list to the ARM's own
remediation log (arm_log.json) — not a REMEDIATION EventLogEntry in Central
Monitoring, whose log and metrics are untouched — and returns None rather
than the action list. -/
theorem C5_arm_behavior : ∀ (user resource decision reason cloud : String) (s : SysState),
    (decision = "DENY" → strContains (lowerStr cloud) "aws" = true →
        remediationActions user resource decision reason cloud = [aws_revoke_access user]) ∧
    (decision = "DENY" → strContains (lowerStr cloud) "aws" = false →
        strContains (lowerStr cloud) "azure" = true →
        remediationActions user resource decision reason cloud = [azure_revoke_access user]) ∧
    (decision = "DENY" → strContains (lowerStr cloud) "aws" = false →
        strContains (lowerStr cloud) "azure" = false →
        strContains (lowerStr cloud) "gcp" = true →
        remediationActions user resource decision reason cloud = [gcp_revoke_access user]) ∧
    (decision = "DENY" → strContains (lowerStr cloud) "aws" = false →
        strContains (lowerStr cloud) "azure" = false →
        strContains (lowerStr cloud) "gcp" = false →
        remediationActions user resource decision reason cloud = []) ∧
    (decision = "REVIEW" →
        remediationActions user resource decision reason cloud
          = ["Admin review needed for " ++ user ++ " on " ++ resource ++ ": " ++ reason]) ∧
    ((auto_remediate user resource decision reason cloud s).1.arm_log
        = s.arm_log ++ [⟨user, resource, decision, reason, cloud,
            remediationActions user resource decision reason cloud⟩]) ∧
    ((auto_remediate user resource decision reason cloud s).1.central = s.central) ∧
    ((auto_remediate user resource decision reason cloud s).1.metrics = s.metrics) ∧
    ((auto_remediate user resource decision reason cloud s).2 = none) := by
  intro user resource decision reason cloud s
  refine ⟨?_, ?_, ?_, ?_, ?_, rfl, rfl, rfl, rfl⟩
  · intro h1 h2
    simp [remediationActions, h1, h2]
  · intro h1 h2 h3
    simp [remediationActions, h1, h2, h3]
  · intro h1 h2 h3 h4
    simp [remediationActions, h1, h2, h3, h4]
  · intro h1 h2 h3 h4
    simp [remediationActions, h1, h2, h3, h4]
  · intro h1
    simp [remediationActions, h1]

/-- Witness for C5 at a concrete input: a DENY on the AWS cloud collects the
AWS adapter's result, and the call returns None. -/
theorem C5_witness :
    remediationActions "bob" "arn:aws:s3:::b" "DENY" "untrusted" "AWS" = [aws_revoke_access "bob"] ∧
    (auto_remediate "bob" "arn:aws:s3:::b" "DENY" "untrusted" "AWS" initSys).2 = none :=
  ⟨(C5_arm_behavior "bob" "arn:aws:s3:::b" "DENY" "untrusted" "AWS" initSys).1 rfl (by decide),
   (C5_arm_behavior "bob" "arn:aws:s3:::b" "DENY" "untrusted" "AWS" initSys).2.2.2.2.2.2.2.2⟩

/-! ### C4 — enforcement ordering -/

/-- The enforcement trace of a concrete DENY request (untrusted IP). -/
def c4Trace : List PEvent :=
  (enforce_access "eve" "s3:ListBucket" "arn:aws:s3:::public-bucket" "8.8.8.8"
    "device-laptop-001" "DENY (Reason: untrusted)" initSys).2

/-- C4 counterexample: on a concrete DENY request the ACCESS_REQUEST log
write is emission 0 and the remediation call is emission 1, so the claim
that the ACCESS_REQUEST entry is emitted only after the remediation call has
returned is false: there are no positions with the remediation call before
the log write. -/
theorem C4_cex :
    c4Trace.findIdx? isAccessLog = some 0 ∧
    c4Trace.findIdx? isArmCall = some 1 ∧
    ¬ (∃ i j : Nat, c4Trace.findIdx? isArmCall = some i ∧
        c4Trace.findIdx? isAccessLog = some j ∧ i < j) := by
  refine ⟨by decide, by decide, ?_⟩
  rintro ⟨i, j, hi, hj, hij⟩
  have h1 : c4Trace.findIdx? isArmCall = some 1 := by decide
  have h0 : c4Trace.findIdx? isAccessLog = some 0 := by decide
  have hi1 : i = 1 := Option.some.inj (hi.symm.trans h1)
  have hj0 : j = 0 := Option.some.inj (hj.symm.trans h0)
  omega

/-- C4 amended: every call to the PEP enforcement entry point emits exactly
one ACCESS_REQUEST event via Central Monitoring; the remediation dispatcher
is invoked if and only if the extracted decision is DENY or REVIEW; and the
ACCESS_REQUEST entry is emitted *before* the remediation call is made (the
dispatcher runs after logging, not before). -/
theorem C4_log_then_remediate :
    ∀ (user action resource ip device pdpOutput : String) (s : SysState),
    ((enforce_access user action resource ip device pdpOutput s).2.countP isAccessLog = 1) ∧
    ((enforce_access user action resource ip device pdpOutput s).2.countP isArmCall
        = (if ["DENY", "REVIEW"].contains (extract_decision_and_reason pdpOutput).1
           then 1 else 0)) ∧
    ((enforce_access user action resource ip device pdpOutput s).2.findIdx? isAccessLog
        = some 0) := by
  intro user action resource ip device pdpOutput s
  simp only [enforce_access]
  split
  · rename_i h
    simp [h, List.countP_cons, isAccessLog, isArmCall, mkEntry, List.findIdx?]
  · rename_i h
    simp only [Bool.not_eq_true] at h
    simp [h, List.countP_cons, isAccessLog, isArmCall, mkEntry, List.findIdx?]

/-! ### Shared facts about the decision scanner -/

lemma tryWordAt_eq (text : List Char) (w w' : String) (h : tryWordAt text w = some w') :
    w' = w := by
  unfold tryWordAt at h
  rcases hc : ciStarts w.data text with _ | rest
  · rw [hc] at h; exact absurd h (by simp)
  · rw [hc] at h
    rcases rest with _ | ⟨r, rs⟩
    · simpa using h.symm
    · by_cases hw : isWordChar r = true
      · simp [hw] at h
      · simp only [Bool.not_eq_true] at hw
        simpa [hw] using h.symm

lemma findSome?_decisionWords (text : List Char) (w : String)
    (h : decisionWords.findSome? (tryWordAt text) = some w) :
    w = "ALLOW" ∨ w = "DENY" ∨ w = "REVIEW" := by
  simp only [decisionWords, List.findSome?] at h
  rcases hA : tryWordAt text "ALLOW" with _ | a <;> rw [hA] at h
  · rcases hD : tryWordAt text "DENY" with _ | d <;> rw [hD] at h
    · rcases hR : tryWordAt text "REVIEW" with _ | r <;> rw [hR] at h
      · simp at h
      · right; right
        rw [← Option.some.inj h]
        exact tryWordAt_eq _ _ _ hR
    · right; left
      rw [← Option.some.inj h]
      exact tryWordAt_eq _ _ _ hD
  · left
    rw [← Option.some.inj h]
    exact tryWordAt_eq _ _ _ hA

lemma findDecisionToken_cases : ∀ (l : List Char) (prev : Option Char) (w : String),
    findDecisionToken prev l = some w → w = "ALLOW" ∨ w = "DENY" ∨ w = "REVIEW" := by
  intro l
  induction l with
  | nil => intro prev w h; simp [findDecisionToken] at h
  | cons c cs ih =>
    intro prev w h
    simp only [findDecisionToken] at h
    split at h
    · rename_i w' heq
      split at heq
      · exact Option.some.inj h ▸ findSome?_decisionWords _ _ heq
      · exact absurd heq (by simp)
    · exact ih (some c) w h

/-- The extracted decision is always one of the three tokens (the fail-closed
default being DENY). -/
lemma extract_fst_cases (s : String) :
    (extract_decision_and_reason s).1 = "ALLOW" ∨ (extract_decision_and_reason s).1 = "DENY" ∨
      (extract_decision_and_reason s).1 = "REVIEW" := by
  rcases hf : findDecisionToken none (asciiClean s) with _ | w
  · right; left; simp [extract_decision_and_reason, hf]
  · have hw := findDecisionToken_cases _ _ _ hf
    rcases hw with h1 | h1 | h1
    · left; simp [extract_decision_and_reason, hf, h1]
    · right; left; simp [extract_decision_and_reason, hf, h1]
    · right; right; simp [extract_decision_and_reason, hf, h1]

/-- C9: For every PDP output string that contains no ALLOW, DENY, or REVIEW
token (token containment being what the extractor's search sees, i.e. after
its ASCII-stripping step), the PEP's decision extraction returns DENY
(fail-closed), and when no "Reason:" line is present the reason defaults to
"Unknown"; enforcement therefore never proceeds with an undefined decision —
the extracted decision is always one of the three tokens. -/
theorem C9_extract_failclosed : ∀ s : String,
    (findDecisionToken none (asciiClean s) = none →
      (extract_decision_and_reason s).1 = "DENY") ∧
    (findMarkerTail ("Reason:".data) (asciiClean s) = none →
      (extract_decision_and_reason s).2 = "Unknown") ∧
    ((extract_decision_and_reason s).1 = "ALLOW" ∨ (extract_decision_and_reason s).1 = "DENY" ∨
      (extract_decision_and_reason s).1 = "REVIEW") := by
  intro s
  refine ⟨?_, ?_, extract_fst_cases s⟩
  · intro h
    simp [extract_decision_and_reason, h]
  · intro h
    simp [extract_decision_and_reason, h]

/-- Witness for C9 at a concrete input: an output with no decision token and
no Reason line. -/
theorem C9_witness :
    (extract_decision_and_reason "access granted").1 = "DENY" ∧
    (extract_decision_and_reason "access granted").2 = "Unknown" :=
  ⟨(C9_extract_failclosed "access granted").1 (by decide),
   (C9_extract_failclosed "access granted").2.1 (by decide)⟩

/-! ### C6 — metrics/log consistency -/

lemma step_eq (m : Metrics) (e : Entry) : update_metrics m e = aggregateStep m e := by
  simp only [update_metrics, aggregateStep]
  by_cases h1 : e.event_type = "ACCESS_REQUEST" <;>
    by_cases h2 : e.event_type = "REMEDIATION" <;>
    simp [h1, h2]

lemma foldl_step_eq : ∀ (es : List Entry) (m : Metrics),
    es.foldl update_metrics m = es.foldl aggregateStep m := by
  intro es
  induction es with
  | nil => intro m; rfl
  | cons e es ih =>
    intro m
    simp only [List.foldl_cons]
    rw [step_eq]
    exact ih _

lemma sumDecisions_update (m : Metrics) (e : Entry)
    (h : e.decision = some "ALLOW" ∨ e.decision = some "DENY" ∨ e.decision = some "REVIEW") :
    sumDecisions (update_metrics m e) = sumDecisions m + 1 := by
  rcases h with h | h | h <;>
    simp [update_metrics, sumDecisions, h] <;> omega

lemma countAccess_append_access (l : List Entry) (e : Entry)
    (h : e.event_type = "ACCESS_REQUEST") :
    countAccess (l ++ [e]) = countAccess l + 1 := by
  simp [countAccess, List.countP_append, h]

lemma enforce_inv (i : EnforceInput) (s : SysState)
    (h : sumDecisions s.metrics = countAccess s.central) :
    sumDecisions ((enforce_access i.user i.action i.resource i.ip i.device i.pdpOutput s).1).metrics
      = countAccess ((enforce_access i.user i.action i.resource i.ip i.device i.pdpOutput s).1).central := by
  have hd := extract_fst_cases i.pdpOutput
  have hdec : (some (extract_decision_and_reason i.pdpOutput).1 : Option String) = some "ALLOW" ∨
      (some (extract_decision_and_reason i.pdpOutput).1 : Option String) = some "DENY" ∨
      (some (extract_decision_and_reason i.pdpOutput).1 : Option String) = some "REVIEW" := by
    rcases hd with h1 | h1 | h1
    · left; rw [h1]
    · right; left; rw [h1]
    · right; right; rw [h1]
  simp only [enforce_access, log_event, auto_remediate]
  split
  · simp only
    rw [sumDecisions_update _ _ hdec, countAccess_append_access _ _ rfl, h]
  · simp only
    rw [sumDecisions_update _ _ hdec, countAccess_append_access _ _ rfl, h]

lemma runAll_inv : ∀ (inputs : List EnforceInput) (s : SysState),
    sumDecisions s.metrics = countAccess s.central →
    sumDecisions (runAll inputs s).metrics = countAccess (runAll inputs s).central := by
  intro inputs
  induction inputs with
  | nil => intro s h; exact h
  | cons i is ih =>
    intro s h
    simp only [runAll, List.foldl_cons]
    exact ih _ (enforce_inv i s h)

/-- C6: After any sequence of log_event calls starting from the all-zero
MetricsState, the in-memory metrics produced by the incremental update path
equal the metrics computed by replaying the recorded entries from empty
state with the batch aggregator; in particular, after any sequence of
enforce calls, the sum of the per-decision counters equals the number of
ACCESS_REQUEST entries in the log. -/
theorem C6_metrics_consistency :
    (∀ es : List Entry, es.foldl update_metrics initMetrics = aggregate_metrics_from_log es) ∧
    (∀ inputs : List EnforceInput,
        sumDecisions (runAll inputs initSys).metrics
          = countAccess (runAll inputs initSys).central) :=
  ⟨fun es => foldl_step_eq es initMetrics, fun inputs => runAll_inv inputs initSys rfl⟩

/-! ### C8 — the snapshot is a shallow copy -/

/-- A concrete heap holding the two nested dictionaries of the live metrics. -/
def c8Heap : MHeap :=
  { perClouds := [{ AWS := 1, Azure := 2, GCP := 3 }],
    eventMaps := [[("ACCESS_REQUEST", 6)]] }

/-- The live metrics object, pointing at cell 0 of each heap component. -/
def c8Live : MetricsObj :=
  { total_access_requests := 6, deny_count := 3, review_count := 1, allow_count := 2,
    total_remediations := 4, per_cloud_ref := 0, events_ref := 0 }

/-- C8 evaluated at the failing input: `get_metrics_snapshot` is
`metrics.copy()`, a shallow copy, so the snapshot holds the very same
references to the nested per-cloud and events-by-type dictionaries as the
live object, and an in-place write (`snapshot["per_cloud"]["AWS"] = 99`)
made through the snapshot changes what the live monitoring state observes —
contradicting the claimed deep, independently-mutable copy. -/
theorem C8_snapshot_aliasing :
    (get_metrics_snapshot c8Live).per_cloud_ref = c8Live.per_cloud_ref ∧
    (get_metrics_snapshot c8Live).events_ref = c8Live.events_ref ∧
    observe (writeCloudAWS c8Heap (get_metrics_snapshot c8Live).per_cloud_ref 99) c8Live
      ≠ observe c8Heap c8Live := by
  decide

end ZT
